import Mathlib

/-!
Verification development for the Stochastic Weight Averaging callback
(pytorch_lightning/callbacks/swa.py) and the DeepSpeed training-type
plugin (pytorch_lightning/plugins/training_type/deepspeed.py).

Modelling conventions:
* Tensor parameter values are modelled as rationals; a model parameter
  set is a list of rationals in the fixed traversal order that
  model.parameters() yields.
* Batch-normalization submodules are modelled by their mutable fields
  (running_mean, running_var, momentum, num_batches_tracked); the map
  self.momenta, keyed by module object identity in the source, is keyed
  here by the position of the module in the traversal order, which is
  stable across the snapshot/restore pair.
* Python None momentum is Option.none.
* Device placement is not modelled: every .to(device) call in the source
  is the identity on the values we track.
* Instrumented call counters (scheduler_swaps, update_calls,
  transfer_calls, reset_bn_calls, restore_calls) count how many times
  the embedding passes through the corresponding call site in the
  source; they have no other effect on the state.
-/

namespace SWA

/-- The averaging-function type: arguments are the current averaged
parameter, the current model parameter, and the number of models already
averaged (source lines 246-253). -/
def AvgFn : Type := ℚ → ℚ → ℕ → ℚ

/-- StochasticWeightAveraging.avg_fn (source lines 246-253): the default
equally-weighted running average. -/
def avg_fn : AvgFn := fun averaged_model_parameter model_parameter num_averaged =>
  averaged_model_parameter +
    (model_parameter - averaged_model_parameter) / (num_averaged + 1)

/-- StochasticWeightAveraging.update_parameters (source lines 227-239):
for each parameter pair of the averaged and the source model, copy the
source value verbatim when n_averaged == 0 and apply the averaging
function otherwise; n_averaged is then incremented.  The source model
parameters are only read (p_model.detach().to(device) makes a copy and
p_swa_.copy_ writes into the averaged model only), so only the new
averaged parameters and the new counter are produced. -/
def update_parameters (average_params model_params : List ℚ) (n_averaged : ℕ)
    (f : AvgFn) : List ℚ × ℕ :=
  (List.zipWith
      (fun p_swa p_model =>
        if n_averaged = 0 then p_model else f p_swa p_model n_averaged)
      average_params model_params,
    n_averaged + 1)

/-- StochasticWeightAveraging.transfer_weights (source lines 241-244):
each destination parameter is overwritten with the corresponding source
parameter. -/
def transfer_weights (src_params dst_params : List ℚ) : List ℚ :=
  List.zipWith (fun src_param _dst_param => src_param) src_params dst_params

/-- One batch-normalization submodule, by its mutable fields. -/
structure BNModule where
  running_mean : ℚ
  running_var : ℚ
  momentum : Option ℚ
  num_batches_tracked : ℕ
deriving Repr, DecidableEq

/-- A LightningModule: its parameters in traversal order and its
batch-normalization submodules in traversal order. -/
structure PLModule where
  params : List ℚ
  bns : List BNModule
deriving Repr, DecidableEq

/-- StochasticWeightAveraging.pl_module_contains_batch_norm (source
lines 125-127). -/
def pl_module_contains_batch_norm (m : PLModule) : Bool :=
  !m.bns.isEmpty

/-- StochasticWeightAveraging.reset_batch_norm_and_save_state (source
lines 129-143): zero every running mean, set every running variance to
one, record the momentum of every batch-norm module into a fresh
momenta map (self.momenta = \x7b\x7d discards any earlier snapshot), set
every momentum to None and zero the tracked-batch counter.  Returns the
updated module together with the new momenta snapshot. -/
def reset_batch_norm_and_save_state (m : PLModule) :
    PLModule × List (Option ℚ) :=
  ({ m with
      bns := m.bns.map (fun _b =>
        { running_mean := 0
          running_var := 1
          momentum := none
          num_batches_tracked := 0 }) },
    m.bns.map (fun b => b.momentum))

/-- StochasticWeightAveraging.reset_momenta (source lines 145-151):
write the snapshot momentum back into every module recorded in
self.momenta. -/
def reset_momenta (m : PLModule) (momenta : List (Option ℚ)) : PLModule :=
  { m with
      bns := List.zipWith (fun b mo => { b with momentum := mo }) m.bns momenta }

/-- The swa_epoch_start argument, a Python Union of int and float
(source line 39). -/
inductive SwaEpochStart where
  | int (n : ℤ)
  | float (q : ℚ)
deriving Repr, DecidableEq

/-- Numeric value of swa_epoch_start under Python arithmetic, where the
int and the float cases share one numeric tower. -/
def SwaEpochStart.val : SwaEpochStart → ℚ
  | .int n => (n : ℚ)
  | .float q => q

/-- The swa_lrs argument, Optional Union of float and list (source line
40).  List elements may be Python floats or ints, mirroring the
per-element isinstance check on source line 100. -/
inductive PyNum where
  | pfloat (q : ℚ)
  | pint (n : ℤ)
deriving Repr, DecidableEq

inductive SwaLRsArg where
  | none
  | float (q : ℚ)
  | int (n : ℤ)
  | list (xs : List PyNum)
deriving Repr, DecidableEq

/-- PyNum value for comparisons. -/
def PyNum.val : PyNum → ℚ
  | .pfloat q => q
  | .pint n => (n : ℚ)

/-- The validation on source lines 98-101: raise when swa_lrs is not a
float and not a list, or is a non-positive float, or is a list in which
some element fails lr > 0 and isinstance(lr, float).  An empty list
passes, since all(...) over an empty iterable is True. -/
def swa_lrs_raises : SwaLRsArg → Bool
  | .float q => decide (q ≤ 0)
  | .list xs =>
      !xs.all (fun lr =>
        decide (0 < lr.val) && (match lr with | .pfloat _ => true | .pint _ => false))
  | .none => true
  | .int _ => true

/-- The validation on source lines 92-96: an int swa_epoch_start below 1
or a float outside the closed interval from 0 to 1 raises. -/
def swa_epoch_start_raises : SwaEpochStart → Bool
  | .int n => decide (n < 1)
  | .float q => !(decide (0 ≤ q) && decide (q ≤ 1))

/-- Errors raised by the SWA callback, all
MisconfigurationException. -/
inductive SWAErr where
  | badSwaEpochStart
  | badSwaLRs
  | multipleOptimizers
  | multipleSchedulers
deriving Repr, DecidableEq

/-- A scheduler entry of trainer.lr_schedulers.  The swalr constructor
records the arguments of the SWALR construction on source lines
183-189. -/
inductive Sched where
  | base (id : ℕ)
  | swalr (swa_lrs : SwaLRsArg) (anneal_epochs : ℕ) (anneal_strategy : String)
      (last_epoch : ℤ)
deriving Repr, DecidableEq

/-- The callback state.  Fields mirror the attributes set in __init__
and in the lifecycle hooks.  In Python the attributes _max_epochs,
n_averaged, momenta, _accumulate_grad_batches and _swa_scheduler do not
exist until first assigned; here they carry inert defaults.  The five
counter fields are instrumentation for the call sites, see the header
comment. -/
structure SWACallback where
  swa_epoch_start : SwaEpochStart
  swa_lrs : SwaLRsArg
  annealing_epochs : ℕ := 10
  annealing_strategy : String := "cos"
  _avg_fn : AvgFn
  model_contains_batch_norm : Option Bool := Option.none
  _max_epochs : ℕ := 0
  n_averaged : ℕ := 0
  average_model : PLModule := ⟨[], []⟩
  momenta : List (Option ℚ) := []
  _accumulate_grad_batches : ℕ := 0
  scheduler_swaps : ℕ := 0
  update_calls : ℕ := 0
  transfer_calls : ℕ := 0
  reset_bn_calls : ℕ := 0
  restore_calls : ℕ := 0

/-- StochasticWeightAveraging.__init__ (source lines 37-115): validate
swa_epoch_start, then swa_lrs, then store the configuration; the stored
_avg_fn is the given function when one was provided and the class-level
default avg_fn otherwise (avg_fn or self.avg_fn, source line 113). -/
def init (swa_epoch_start : SwaEpochStart) (swa_lrs : SwaLRsArg)
    (annealing_epochs : ℕ) (annealing_strategy : String)
    (user_avg_fn : Option AvgFn) : Except SWAErr SWACallback :=
  if swa_epoch_start_raises swa_epoch_start then .error .badSwaEpochStart
  else if swa_lrs_raises swa_lrs then .error .badSwaLRs
  else .ok
    { swa_epoch_start := swa_epoch_start
      swa_lrs := swa_lrs
      annealing_epochs := annealing_epochs
      annealing_strategy := annealing_strategy
      _avg_fn := user_avg_fn.getD avg_fn }

/-- The host trainer state, restricted to the fields the callback reads
and writes. -/
structure TrainerState where
  max_epochs : ℕ
  current_epoch : ℕ := 0
  optimizers : List ℕ := [0]
  lr_schedulers : List Sched := [Sched.base 0]
  num_training_batches : ℕ
  accumulate_grad_batches : ℕ
  train_dataloader_len : ℕ
  skip_backward : Bool := false
  pl_module : PLModule

/-- Python int() truncates toward zero. -/
def pyIntTrunc (q : ℚ) : ℤ :=
  if q < 0 then -⌊-q⌋ else ⌊q⌋

/-- StochasticWeightAveraging.swa_start (source lines 117-119):
max(self._swa_epoch_start - 1, 0), zero-based.  The value lives in the
Python numeric tower, so it is a rational here (before resolution
_swa_epoch_start may be a float). -/
def swa_start (s : SWACallback) : ℚ :=
  max (s.swa_epoch_start.val - 1) 0

/-- StochasticWeightAveraging.swa_end (source lines 121-123):
self._max_epochs - 1, zero-based. -/
def swa_end (s : SWACallback) : ℚ :=
  (s._max_epochs : ℚ) - 1

/-- Python truthiness of the _model_contains_batch_norm attribute,
which is None until on_before_accelerator_backend_setup runs. -/
def truthy : Option Bool → Bool
  | Option.none => false
  | Option.some b => b

/-- StochasticWeightAveraging.on_before_accelerator_backend_setup
(source lines 153-173): deep-copy the module into the averaged model,
reject more than one optimizer or scheduler, resolve a float
swa_epoch_start to int(max_epochs * swa_epoch_start), record whether
the module contains batch norm, store max_epochs, and when batch norm
is present increase the trainer max_epochs by one.  In the source the
deep copy on line 155 precedes the two checks; since an exception
aborts the lifecycle call, the embedding performs all state updates on
the success path only. -/
def on_before_accelerator_backend_setup (s : SWACallback) (tr : TrainerState) :
    Except SWAErr (SWACallback × TrainerState) :=
  if tr.optimizers.length > 1 then .error .multipleOptimizers
  else if tr.lr_schedulers.length > 1 then .error .multipleSchedulers
  else
    let resolved :=
      match s.swa_epoch_start with
      | .float q => SwaEpochStart.int (pyIntTrunc ((tr.max_epochs : ℚ) * q))
      | x => x
    let contains_bn := pl_module_contains_batch_norm tr.pl_module
    .ok
      ({ s with
          average_model := tr.pl_module
          swa_epoch_start := resolved
          model_contains_batch_norm := Option.some contains_bn
          _max_epochs := tr.max_epochs },
        if contains_bn then { tr with max_epochs := tr.max_epochs + 1 } else tr)

/-- First conditional of on_train_epoch_start (source lines 176-194):
at swa_start build the SWALR scheduler from the stored configuration,
overwrite entry 0 of trainer.lr_schedulers with it, and initialize
n_averaged to zero. -/
def epoch_start_phase1 (s : SWACallback) (tr : TrainerState) :
    SWACallback × TrainerState :=
  if (tr.current_epoch : ℚ) = swa_start s then
    let sched := Sched.swalr s.swa_lrs s.annealing_epochs s.annealing_strategy
      (if s.annealing_strategy = "cos" then (tr.max_epochs : ℤ) else -1)
    ({ s with
        scheduler_swaps := s.scheduler_swaps + 1
        n_averaged := 0 },
      { tr with lr_schedulers := tr.lr_schedulers.set 0 sched })
  else (s, tr)

/-- Second conditional of on_train_epoch_start (source lines 196-197):
inside the window call update_parameters.  The source at line 197
passes the class-level default avg_fn, not the stored self._avg_fn. -/
def epoch_start_phase2 (s : SWACallback) (tr : TrainerState) :
    SWACallback × TrainerState :=
  if swa_start s ≤ (tr.current_epoch : ℚ) ∧ (tr.current_epoch : ℚ) ≤ swa_end s then
    let u := update_parameters s.average_model.params tr.pl_module.params
      s.n_averaged avg_fn
    ({ s with
        average_model := { s.average_model with params := u.1 }
        n_averaged := u.2
        update_calls := s.update_calls + 1 },
      tr)
  else (s, tr)

/-- Third conditional of on_train_epoch_start (source lines 199-212):
past the window transfer the averaged weights into the module, reset
batch norm saving the momenta, set the skip-backward flag, increment
num_training_batches, save accumulate_grad_batches and override it
with the dataloader length. -/
def epoch_start_phase3 (s : SWACallback) (tr : TrainerState) :
    SWACallback × TrainerState :=
  if swa_end s < (tr.current_epoch : ℚ) then
    let plm := { tr.pl_module with
      params := transfer_weights s.average_model.params tr.pl_module.params }
    let r := reset_batch_norm_and_save_state plm
    ({ s with
        momenta := r.2
        transfer_calls := s.transfer_calls + 1
        reset_bn_calls := s.reset_bn_calls + 1
        _accumulate_grad_batches := tr.accumulate_grad_batches },
      { tr with
          pl_module := r.1
          skip_backward := true
          num_training_batches := tr.num_training_batches + 1
          accumulate_grad_batches := tr.train_dataloader_len })
  else (s, tr)

/-- StochasticWeightAveraging.on_train_epoch_start (source lines
175-212): the three conditionals in source order. -/
def on_train_epoch_start (s : SWACallback) (tr : TrainerState) :
    SWACallback × TrainerState :=
  let p1 := epoch_start_phase1 s tr
  let p2 := epoch_start_phase2 p1.1 p1.2
  epoch_start_phase3 p2.1 p2.2

/-- StochasticWeightAveraging.on_train_epoch_end (source lines
214-225): clear the skip-backward flag unconditionally; at swa_end
without batch norm transfer the averaged weights into the module; past
swa_end restore accumulate_grad_batches, decrement
num_training_batches and restore the batch-norm momenta. -/
def on_train_epoch_end (s : SWACallback) (tr : TrainerState) :
    SWACallback × TrainerState :=
  let tr := { tr with skip_backward := false }
  if (tr.current_epoch : ℚ) = swa_end s ∧ !truthy s.model_contains_batch_norm then
    ({ s with transfer_calls := s.transfer_calls + 1 },
      { tr with pl_module := { tr.pl_module with
          params := transfer_weights s.average_model.params tr.pl_module.params } })
  else if swa_end s < (tr.current_epoch : ℚ) then
    ({ s with restore_calls := s.restore_calls + 1 },
      { tr with
          accumulate_grad_batches := s._accumulate_grad_batches
          num_training_batches := tr.num_training_batches - 1
          pl_module := reset_momenta tr.pl_module s.momenta })
  else (s, tr)

/-- Iterated update_parameters: feed a sequence of source parameter sets
through update_parameters, threading the averaged parameters and the
counter exactly as on_train_epoch_start does across epochs. -/
def runUpdates (f : AvgFn) (average_params : List ℚ) (n_averaged : ℕ) :
    List (List ℚ) → List ℚ × ℕ
  | [] => (average_params, n_averaged)
  | src :: rest =>
      let s := update_parameters average_params src n_averaged f
      runUpdates f s.1 s.2 rest

/-- Extract the payload of a successful call, with an inert fallback
for the error case (the scenarios below always assert success
separately). -/
def exceptOkD {ε α : Type} (d : α) : Except ε α → α
  | .ok a => a
  | .error _ => d

/-- Callback configured with swa_epoch_start = 0.8 (float), as produced
by init with a valid positive float learning rate and no user averaging
function. -/
def scenarioCb : SWACallback :=
  { swa_epoch_start := .float (4/5)
    swa_lrs := .float (1/20)
    _avg_fn := avg_fn }

/-- Host trainer with max_epochs = 10 and a module with parameter list
ps and no batch-normalization layers. -/
def scenarioTrainer (ps : List ℚ) : TrainerState :=
  { max_epochs := 10
    num_training_batches := 5
    accumulate_grad_batches := 1
    train_dataloader_len := 5
    pl_module := ⟨ps, []⟩ }

/-- State after on_before_accelerator_backend_setup in the scenario. -/
def scenarioInit (ps : List ℚ) : SWACallback × TrainerState :=
  exceptOkD (scenarioCb, scenarioTrainer ps)
    (on_before_accelerator_backend_setup scenarioCb (scenarioTrainer ps))

/-- One full epoch e of the host loop: the trainer sets current_epoch,
then the two hooks run in order. -/
def scenarioStep (st : SWACallback × TrainerState) (e : ℕ) :
    SWACallback × TrainerState :=
  let st1 := on_train_epoch_start st.1 { st.2 with current_epoch := e }
  on_train_epoch_end st1.1 st1.2

/-- Scenario state after k complete epochs (epochs 0 to k-1). -/
def scenarioAfter (ps : List ℚ) : ℕ → SWACallback × TrainerState
  | 0 => scenarioInit ps
  | k + 1 => scenarioStep (scenarioAfter ps k) k

/-- Scenario state in the middle of epoch e: after its
on_train_epoch_start, before its on_train_epoch_end. -/
def scenarioAtStart (ps : List ℚ) (e : ℕ) : SWACallback × TrainerState :=
  on_train_epoch_start (scenarioAfter ps e).1
    { (scenarioAfter ps e).2 with current_epoch := e }

/-- A user-supplied averaging function used to exhibit that the stored
_avg_fn is ignored by on_train_epoch_start: it returns the constant
99 regardless of its arguments. -/
def constant99 : AvgFn := fun _ _ _ => 99

/-- Callback state in the middle of an averaging run with a custom
averaging function: window already resolved to epochs 7 to 9, one model
already averaged, current averaged parameter 0. -/
def customFnCb : SWACallback :=
  { swa_epoch_start := .int 8
    swa_lrs := .float (1/20)
    _avg_fn := constant99
    model_contains_batch_norm := Option.some false
    _max_epochs := 10
    n_averaged := 1
    average_model := ⟨[0], []⟩ }

/-- Host trainer at epoch 8 (inside the window, after swa_start) whose
module parameter is 10. -/
def customFnTrainer : TrainerState :=
  { max_epochs := 10
    current_epoch := 8
    num_training_batches := 5
    accumulate_grad_batches := 1
    train_dataloader_len := 5
    pl_module := ⟨[10], []⟩ }

/-- Spec-side predicate: swa_lrs is a positive float (spec section 4.1,
Configure). -/
def isPositiveFloatLR : SwaLRsArg → Bool
  | .float q => decide (0 < q)
  | _ => false

/-- Spec-side predicate: swa_lrs is a list whose elements are all
positive floats.  The empty list satisfies it vacuously. -/
def isPositiveFloatListLR : SwaLRsArg → Bool
  | .list xs => xs.all (fun lr => match lr with
      | .pfloat q => decide (0 < q)
      | .pint _ => false)
  | _ => false

/-- Callback configured with swa_epoch_start = 0.0 (a valid float in
the closed unit interval). -/
def zeroStartCb : SWACallback :=
  { swa_epoch_start := .float 0
    swa_lrs := .float (1/20)
    _avg_fn := avg_fn }

/-- Callback state during the synthetic recalibration epoch of a run
with batch-norm layers: window resolved to epochs 7 to 9,
max_epochs = 10 recorded before the extension. -/
def pastCb : SWACallback :=
  { swa_epoch_start := .int 8
    swa_lrs := .float (1/20)
    _avg_fn := avg_fn
    model_contains_batch_norm := Option.some true
    _max_epochs := 10
    n_averaged := 3
    average_model := ⟨[2], [⟨0, 1, Option.some (1/10), 0⟩]⟩ }

/-- Host trainer at the synthetic epoch 10, past swa_end = 9, with one
batch-norm module. -/
def pastTrainer : TrainerState :=
  { max_epochs := 11
    current_epoch := 10
    num_training_batches := 5
    accumulate_grad_batches := 2
    train_dataloader_len := 5
    pl_module := ⟨[3], [⟨(1/2), 2, Option.some (1/10), 7⟩]⟩ }

/-- Callback state right after on_before_accelerator_backend_setup in
the C1 scenario: the float 0.8 start is resolved to the int 8. -/
def c1Cb (ps : List ℚ) : SWACallback :=
  { swa_epoch_start := .int 8
    swa_lrs := .float (1/20)
    _avg_fn := avg_fn
    model_contains_batch_norm := Option.some false
    _max_epochs := 10
    average_model := ⟨ps, []⟩ }

end SWA

namespace DeepSpeed

/-- Exceptions surfaced by the plugin paths modelled here.
misconfigNoOptimizerKey is the raise on source lines 195-199;
misconfigSingleOptimizerScheduler the raise on source lines 201-204;
keyError a missing environment variable (os.environ lookup, source
lines 149-151); valueError a non-integer environment value (int()
conversion, same lines); typeError Python rejecting a subscript of a
dict items view (source lines 206-207 in Python 3). -/
inductive DSErr where
  | misconfigNoOptimizerKey
  | misconfigSingleOptimizerScheduler
  | keyError
  | valueError
  | typeError
deriving Repr, DecidableEq

/-- Whether the exception is a MisconfigurationException (the class the
spec calls ConfigurationError).  KeyError, ValueError and TypeError are
built-in Python exceptions, not MisconfigurationException. -/
def DSErr.isMisconfiguration : DSErr → Bool
  | .misconfigNoOptimizerKey => true
  | .misconfigSingleOptimizerScheduler => true
  | .keyError => false
  | .valueError => false
  | .typeError => false

/-- The DeepSpeed engine config, restricted to the keys
_format_optimizer_config touches.  has_optimizer models the membership
test of the key optimizer; the dict entries written on success are kept
as name/params pairs. -/
structure DSConfig where
  has_optimizer : Bool
  optimizer : Option (String × String) := Option.none
  scheduler : Option (String × String) := Option.none
  zero_allow_untested_optimizer : Bool := false
deriving Repr, DecidableEq

/-- DeepSpeedPlugin._format_optimizer_config (source lines 190-216) in
the case where configure_optimizers returns two dicts, modelled as
association lists (so the isinstance guard on source line 194 does not
fire).  The guard on source line 201 reads
`not len(self.optimizer) == 1 or len(self.scheduler) == 1`, which by
Python precedence is (len(optimizer) != 1) or (len(scheduler) == 1) and
therefore raises whenever the scheduler dict has exactly one entry.
When that guard is passed, source line 206 evaluates
self.optimizer.items()[0]; dict items views are not subscriptable in
Python 3, so the call raises TypeError and the writes into the config
are unreachable. -/
def format_optimizer_config (cfg : DSConfig)
    (optimizer scheduler : List (String × String)) : Except DSErr DSConfig :=
  if cfg.has_optimizer then .ok cfg
  else if ¬(optimizer.length = 1) ∨ scheduler.length = 1 then
    .error .misconfigSingleOptimizerScheduler
  else
    .error .typeError

/-- An environment variable value, by the outcome of Python int() on
it: a string that parses as an integer, or one that does not. -/
inductive EnvVal where
  | intStr (n : ℤ)
  | nonIntStr
deriving Repr, DecidableEq

/-- int(os.environ[k]): KeyError when the variable is absent,
ValueError when it does not parse as an integer. -/
def envInt (env : String → Option EnvVal) (k : String) : Except DSErr ℤ :=
  match env k with
  | Option.none => .error .keyError
  | Option.some (.intStr n) => .ok n
  | Option.some .nonIntStr => .error .valueError

/-- Whether looking up and converting the variable would fail. -/
def envBad (env : String → Option EnvVal) (k : String) : Bool :=
  match env k with
  | Option.none => true
  | Option.some .nonIntStr => true
  | Option.some (.intStr _) => false

structure RankTopology where
  global_rank : ℤ
  world_size : ℤ
  local_rank : ℤ
deriving Repr, DecidableEq

/-- DeepSpeedPlugin.set_world_ranks (source lines 148-151): read RANK,
WORLD_SIZE and LOCAL_RANK in that order, converting each with int(). -/
def set_world_ranks (env : String → Option EnvVal) : Except DSErr RankTopology :=
  match envInt env "RANK" with
  | .error e => .error e
  | .ok g =>
    match envInt env "WORLD_SIZE" with
    | .error e => .error e
    | .ok w =>
      match envInt env "LOCAL_RANK" with
      | .error e => .error e
      | .ok l => .ok ⟨g, w, l⟩

/-- The environment of testable property C9: RANK and WORLD_SIZE set to
integer strings, LOCAL_RANK absent. -/
def envMissingLocalRank : String → Option EnvVal := fun k =>
  if k = "RANK" then Option.some (.intStr 0)
  else if k = "WORLD_SIZE" then Option.some (.intStr 1)
  else Option.none

end DeepSpeed

namespace SWA

set_option maxRecDepth 4000

lemma runUpdates_singleton_mean (xs : List ℚ) : ∀ (n : ℕ) (a : ℚ), 0 < n + xs.length →
    runUpdates avg_fn [a] n (xs.map fun x => [x]) =
      ([((a * n + xs.sum) / (n + xs.length) : ℚ)], n + xs.length) := by
  induction xs with
  | nil =>
      intro n a h
      simp only [List.map_nil, runUpdates, List.sum_nil, List.length_nil, add_zero] at *
      have hn : (n : ℚ) ≠ 0 := by exact_mod_cast Nat.pos_iff_ne_zero.mp h
      field_simp
  | cons x xs ih =>
      intro n a h
      simp only [List.map_cons, runUpdates, update_parameters, List.zipWith, List.sum_cons,
        List.length_cons]
      by_cases hn : n = 0
      · subst hn
        simp only [if_pos rfl, if_true, Nat.zero_add]
        rw [ih 1 x (by omega)]
        simp only [Prod.mk.injEq, List.cons.injEq, and_true]
        refine ⟨?_, by omega⟩
        push_cast
        ring_nf
      · have hq : (n : ℚ) + 1 ≠ 0 := by positivity
        simp only [if_neg hn, avg_fn]
        rw [ih (n + 1) _ (by omega)]
        simp only [Prod.mk.injEq, List.cons.injEq, and_true]
        refine ⟨?_, by omega⟩
        have hd : (0 : ℚ) < (n : ℚ) + 1 + (xs.length : ℚ) := by positivity
        have hd2 : (0 : ℚ) < (n : ℚ) + ((xs.length : ℚ) + 1) := by positivity
        push_cast
        rw [div_eq_div_iff (by linarith) (by linarith)]
        field_simp
        ring

lemma zipWith_momentum (L : List BNModule) : ∀ (M : List (Option ℚ)), L.length = M.length →
    (List.zipWith (fun b mo => { b with momentum := mo }) L M).map (fun b => b.momentum) = M := by
  induction L with
  | nil => intro M h; cases M <;> simp_all
  | cons b L ih =>
      intro M h
      cases M with
      | nil => simp at h
      | cons mo M => simp_all

lemma phase1_frame (s : SWACallback) (tr : TrainerState) :
    (epoch_start_phase1 s tr).1.swa_epoch_start = s.swa_epoch_start ∧
    (epoch_start_phase1 s tr).1._max_epochs = s._max_epochs ∧
    (epoch_start_phase1 s tr).1._accumulate_grad_batches = s._accumulate_grad_batches ∧
    (epoch_start_phase1 s tr).2.current_epoch = tr.current_epoch ∧
    (epoch_start_phase1 s tr).2.pl_module = tr.pl_module ∧
    (epoch_start_phase1 s tr).2.max_epochs = tr.max_epochs ∧
    (epoch_start_phase1 s tr).2.num_training_batches = tr.num_training_batches ∧
    (epoch_start_phase1 s tr).2.accumulate_grad_batches = tr.accumulate_grad_batches ∧
    (epoch_start_phase1 s tr).2.skip_backward = tr.skip_backward ∧
    (epoch_start_phase1 s tr).2.train_dataloader_len = tr.train_dataloader_len := by
  unfold epoch_start_phase1
  split <;> simp

lemma phase2_tr (s : SWACallback) (tr : TrainerState) :
    (epoch_start_phase2 s tr).2 = tr := by
  unfold epoch_start_phase2
  split <;> rfl

lemma phase2_frame (s : SWACallback) (tr : TrainerState) :
    (epoch_start_phase2 s tr).1.swa_epoch_start = s.swa_epoch_start ∧
    (epoch_start_phase2 s tr).1._max_epochs = s._max_epochs ∧
    (epoch_start_phase2 s tr).1._accumulate_grad_batches = s._accumulate_grad_batches := by
  unfold epoch_start_phase2
  split <;> simp

lemma phase3_frame (s : SWACallback) (tr : TrainerState) :
    (epoch_start_phase3 s tr).1.swa_epoch_start = s.swa_epoch_start ∧
    (epoch_start_phase3 s tr).1._max_epochs = s._max_epochs := by
  unfold epoch_start_phase3
  split <;> simp

lemma swa_end_eq (s t : SWACallback) (h : s._max_epochs = t._max_epochs) :
    swa_end s = swa_end t := by
  simp [swa_end, h]

lemma phase3_not (s : SWACallback) (tr : TrainerState)
    (h : ¬ swa_end s < (tr.current_epoch : ℚ)) :
    epoch_start_phase3 s tr = (s, tr) := by
  unfold epoch_start_phase3
  rw [if_neg h]

lemma phase3_past (s : SWACallback) (tr : TrainerState)
    (h : swa_end s < (tr.current_epoch : ℚ)) :
    epoch_start_phase3 s tr =
      ({ s with
          momenta := (reset_batch_norm_and_save_state { tr.pl_module with
            params := transfer_weights s.average_model.params tr.pl_module.params }).2
          transfer_calls := s.transfer_calls + 1
          reset_bn_calls := s.reset_bn_calls + 1
          _accumulate_grad_batches := tr.accumulate_grad_batches },
        { tr with
            pl_module := (reset_batch_norm_and_save_state { tr.pl_module with
              params := transfer_weights s.average_model.params tr.pl_module.params }).1
            skip_backward := true
            num_training_batches := tr.num_training_batches + 1
            accumulate_grad_batches := tr.train_dataloader_len }) := by
  unfold epoch_start_phase3
  rw [if_pos h]

lemma epoch_end_past (s : SWACallback) (tr : TrainerState)
    (h : swa_end s < (tr.current_epoch : ℚ)) :
    on_train_epoch_end s tr =
      ({ s with restore_calls := s.restore_calls + 1 },
        { tr with
            skip_backward := false
            accumulate_grad_batches := s._accumulate_grad_batches
            num_training_batches := tr.num_training_batches - 1
            pl_module := reset_momenta tr.pl_module s.momenta }) := by
  unfold on_train_epoch_end
  rw [if_neg (fun hcon => (ne_of_gt h) hcon.1), if_pos h]

lemma start_swa_epoch_start (s : SWACallback) (tr : TrainerState) :
    (on_train_epoch_start s tr).1.swa_epoch_start = s.swa_epoch_start := by
  have hdec : on_train_epoch_start s tr =
      epoch_start_phase3
        (epoch_start_phase2 (epoch_start_phase1 s tr).1 (epoch_start_phase1 s tr).2).1
        (epoch_start_phase2 (epoch_start_phase1 s tr).1 (epoch_start_phase1 s tr).2).2 := rfl
  rw [hdec, (phase3_frame _ _).1, (phase2_frame _ _).1, (phase1_frame _ _).1]

lemma end_swa_epoch_start (s : SWACallback) (tr : TrainerState) :
    (on_train_epoch_end s tr).1.swa_epoch_start = s.swa_epoch_start := by
  simp only [on_train_epoch_end]
  split
  · rfl
  · split <;> rfl

lemma scenarioInit_eq (ps : List ℚ) :
    scenarioInit ps = (c1Cb ps, scenarioTrainer ps) := by
  norm_num [scenarioInit, exceptOkD, on_before_accelerator_backend_setup, scenarioCb,
    scenarioTrainer, c1Cb, pl_module_contains_batch_norm, pyIntTrunc, SwaEpochStart.val,
    Int.floor_ofNat]

lemma step_pre (st : SWACallback × TrainerState) (e : ℕ) (he : e ≤ 6)
    (h1 : st.1.swa_epoch_start = SwaEpochStart.int 8)
    (h2 : st.1._max_epochs = 10) :
    scenarioStep st e = (st.1, { st.2 with current_epoch := e, skip_backward := false }) := by
  have hq : (e : ℚ) ≤ 6 := by exact_mod_cast he
  have hne7 : ¬((e : ℚ) = 7) := by intro hh; rw [hh] at hq; norm_num at hq
  have hnge7 : ¬((7 : ℚ) ≤ (e : ℚ)) := by intro hh; linarith
  have hne9 : ¬((e : ℚ) = 9) := by intro hh; rw [hh] at hq; norm_num at hq
  have hngt9 : ¬((9 : ℚ) < (e : ℚ)) := by intro hh; linarith
  unfold scenarioStep on_train_epoch_start epoch_start_phase1 epoch_start_phase2
    epoch_start_phase3 on_train_epoch_end
  norm_num [swa_start, swa_end, SwaEpochStart.val, h1, h2, hne7, hnge7, hne9, hngt9, truthy]

lemma step_7_obs (st : SWACallback × TrainerState)
    (h1 : st.1.swa_epoch_start = SwaEpochStart.int 8)
    (h2 : st.1._max_epochs = 10)
    (h3 : st.1.model_contains_batch_norm = Option.some false) :
    (scenarioStep st 7).1.swa_epoch_start = SwaEpochStart.int 8 ∧
    (scenarioStep st 7).1._max_epochs = 10 ∧
    (scenarioStep st 7).1.model_contains_batch_norm = Option.some false ∧
    (scenarioStep st 7).1.n_averaged = 1 ∧
    (scenarioStep st 7).1.update_calls = st.1.update_calls + 1 ∧
    (scenarioStep st 7).1.scheduler_swaps = st.1.scheduler_swaps + 1 ∧
    (scenarioStep st 7).1.transfer_calls = st.1.transfer_calls ∧
    (scenarioStep st 7).2.max_epochs = st.2.max_epochs := by
  unfold scenarioStep on_train_epoch_start epoch_start_phase1 epoch_start_phase2
    epoch_start_phase3 on_train_epoch_end
  norm_num [swa_start, swa_end, SwaEpochStart.val, h1, h2, h3, truthy, update_parameters]

lemma step_8_obs (st : SWACallback × TrainerState)
    (h1 : st.1.swa_epoch_start = SwaEpochStart.int 8)
    (h2 : st.1._max_epochs = 10)
    (h3 : st.1.model_contains_batch_norm = Option.some false) :
    (scenarioStep st 8).1.swa_epoch_start = SwaEpochStart.int 8 ∧
    (scenarioStep st 8).1._max_epochs = 10 ∧
    (scenarioStep st 8).1.model_contains_batch_norm = Option.some false ∧
    (scenarioStep st 8).1.n_averaged = st.1.n_averaged + 1 ∧
    (scenarioStep st 8).1.update_calls = st.1.update_calls + 1 ∧
    (scenarioStep st 8).1.scheduler_swaps = st.1.scheduler_swaps ∧
    (scenarioStep st 8).1.transfer_calls = st.1.transfer_calls ∧
    (scenarioStep st 8).2.max_epochs = st.2.max_epochs := by
  unfold scenarioStep on_train_epoch_start epoch_start_phase1 epoch_start_phase2
    epoch_start_phase3 on_train_epoch_end
  norm_num [swa_start, swa_end, SwaEpochStart.val, h1, h2, h3, truthy, update_parameters]

lemma step_9_obs (st : SWACallback × TrainerState)
    (h1 : st.1.swa_epoch_start = SwaEpochStart.int 8)
    (h2 : st.1._max_epochs = 10)
    (h3 : st.1.model_contains_batch_norm = Option.some false) :
    (scenarioStep st 9).1.swa_epoch_start = SwaEpochStart.int 8 ∧
    (scenarioStep st 9).1._max_epochs = 10 ∧
    (scenarioStep st 9).1.model_contains_batch_norm = Option.some false ∧
    (scenarioStep st 9).1.n_averaged = st.1.n_averaged + 1 ∧
    (scenarioStep st 9).1.update_calls = st.1.update_calls + 1 ∧
    (scenarioStep st 9).1.scheduler_swaps = st.1.scheduler_swaps ∧
    (scenarioStep st 9).1.transfer_calls = st.1.transfer_calls + 1 ∧
    (scenarioStep st 9).2.max_epochs = st.2.max_epochs := by
  unfold scenarioStep on_train_epoch_start epoch_start_phase1 epoch_start_phase2
    epoch_start_phase3 on_train_epoch_end
  norm_num [swa_start, swa_end, SwaEpochStart.val, h1, h2, h3, truthy, update_parameters]

lemma start_7_obs (s : SWACallback) (tr : TrainerState)
    (h1 : s.swa_epoch_start = SwaEpochStart.int 8)
    (h2 : s._max_epochs = 10)
    (hc : tr.current_epoch = 7) :
    (on_train_epoch_start s tr).1.n_averaged = 1 ∧
    (on_train_epoch_start s tr).1.update_calls = s.update_calls + 1 ∧
    (on_train_epoch_start s tr).1.scheduler_swaps = s.scheduler_swaps + 1 ∧
    (on_train_epoch_start s tr).1.transfer_calls = s.transfer_calls := by
  unfold on_train_epoch_start epoch_start_phase1 epoch_start_phase2 epoch_start_phase3
  norm_num [swa_start, swa_end, SwaEpochStart.val, h1, h2, hc, update_parameters]

lemma start_8_obs (s : SWACallback) (tr : TrainerState)
    (h1 : s.swa_epoch_start = SwaEpochStart.int 8)
    (h2 : s._max_epochs = 10)
    (hc : tr.current_epoch = 8) :
    (on_train_epoch_start s tr).1.n_averaged = s.n_averaged + 1 ∧
    (on_train_epoch_start s tr).1.update_calls = s.update_calls + 1 ∧
    (on_train_epoch_start s tr).1.scheduler_swaps = s.scheduler_swaps ∧
    (on_train_epoch_start s tr).1.transfer_calls = s.transfer_calls := by
  unfold on_train_epoch_start epoch_start_phase1 epoch_start_phase2 epoch_start_phase3
  norm_num [swa_start, swa_end, SwaEpochStart.val, h1, h2, hc, update_parameters]

lemma start_9_obs (s : SWACallback) (tr : TrainerState)
    (h1 : s.swa_epoch_start = SwaEpochStart.int 8)
    (h2 : s._max_epochs = 10)
    (hc : tr.current_epoch = 9) :
    (on_train_epoch_start s tr).1.n_averaged = s.n_averaged + 1 ∧
    (on_train_epoch_start s tr).1.update_calls = s.update_calls + 1 ∧
    (on_train_epoch_start s tr).1.scheduler_swaps = s.scheduler_swaps ∧
    (on_train_epoch_start s tr).1.transfer_calls = s.transfer_calls := by
  unfold on_train_epoch_start epoch_start_phase1 epoch_start_phase2 epoch_start_phase3
  norm_num [swa_start, swa_end, SwaEpochStart.val, h1, h2, hc, update_parameters]

end SWA

namespace SWA

/-- C1: with max_epochs 10, swa_epoch_start 0.8 (float) and a module
without batch-norm layers, the window resolves to epochs 7 to 9; each
of the epoch starts 7, 8, 9 calls update_parameters exactly once, so
n_averaged runs 0, 1, 2, 3; the scheduler is replaced exactly once, at
epoch 7 start; transfer_weights runs exactly once, at epoch 9 end; and
the trainer max_epochs stays 10 after every epoch. -/
theorem C1_swa_end_to_end (ps : List ℚ) :
    swa_start (scenarioInit ps).1 = 7 ∧
    swa_end (scenarioInit ps).1 = 9 ∧
    (scenarioAfter ps 7).1.n_averaged = 0 ∧
    (scenarioAtStart ps 7).1.n_averaged = 1 ∧
    (scenarioAtStart ps 8).1.n_averaged = 2 ∧
    (scenarioAtStart ps 9).1.n_averaged = 3 ∧
    (scenarioAtStart ps 7).1.update_calls = 1 ∧
    (scenarioAtStart ps 8).1.update_calls = 2 ∧
    (scenarioAtStart ps 9).1.update_calls = 3 ∧
    (scenarioAfter ps 10).1.update_calls = 3 ∧
    (scenarioAfter ps 7).1.scheduler_swaps = 0 ∧
    (scenarioAtStart ps 7).1.scheduler_swaps = 1 ∧
    (scenarioAfter ps 10).1.scheduler_swaps = 1 ∧
    (scenarioAtStart ps 9).1.transfer_calls = 0 ∧
    (scenarioAfter ps 10).1.transfer_calls = 1 ∧
    (scenarioAfter ps 0).2.max_epochs = 10 ∧
    (scenarioAfter ps 1).2.max_epochs = 10 ∧
    (scenarioAfter ps 2).2.max_epochs = 10 ∧
    (scenarioAfter ps 3).2.max_epochs = 10 ∧
    (scenarioAfter ps 4).2.max_epochs = 10 ∧
    (scenarioAfter ps 5).2.max_epochs = 10 ∧
    (scenarioAfter ps 6).2.max_epochs = 10 ∧
    (scenarioAfter ps 7).2.max_epochs = 10 ∧
    (scenarioAfter ps 8).2.max_epochs = 10 ∧
    (scenarioAfter ps 9).2.max_epochs = 10 ∧
    (scenarioAfter ps 10).2.max_epochs = 10 := by
  have h0 : scenarioAfter ps 0 = (c1Cb ps, scenarioTrainer ps) := scenarioInit_eq ps
  have h1 : scenarioAfter ps 1 =
      (c1Cb ps, { scenarioTrainer ps with current_epoch := 0, skip_backward := false }) := by
    show scenarioStep (scenarioAfter ps 0) 0 = _
    rw [h0, step_pre (c1Cb ps, scenarioTrainer ps) 0 (by norm_num) rfl rfl]
  have h2 : scenarioAfter ps 2 =
      (c1Cb ps, { scenarioTrainer ps with current_epoch := 1, skip_backward := false }) := by
    show scenarioStep (scenarioAfter ps 1) 1 = _
    rw [h1, step_pre _ 1 (by norm_num) rfl rfl]
  have h3 : scenarioAfter ps 3 =
      (c1Cb ps, { scenarioTrainer ps with current_epoch := 2, skip_backward := false }) := by
    show scenarioStep (scenarioAfter ps 2) 2 = _
    rw [h2, step_pre _ 2 (by norm_num) rfl rfl]
  have h4 : scenarioAfter ps 4 =
      (c1Cb ps, { scenarioTrainer ps with current_epoch := 3, skip_backward := false }) := by
    show scenarioStep (scenarioAfter ps 3) 3 = _
    rw [h3, step_pre _ 3 (by norm_num) rfl rfl]
  have h5 : scenarioAfter ps 5 =
      (c1Cb ps, { scenarioTrainer ps with current_epoch := 4, skip_backward := false }) := by
    show scenarioStep (scenarioAfter ps 4) 4 = _
    rw [h4, step_pre _ 4 (by norm_num) rfl rfl]
  have h6 : scenarioAfter ps 6 =
      (c1Cb ps, { scenarioTrainer ps with current_epoch := 5, skip_backward := false }) := by
    show scenarioStep (scenarioAfter ps 5) 5 = _
    rw [h5, step_pre _ 5 (by norm_num) rfl rfl]
  have h7 : scenarioAfter ps 7 =
      (c1Cb ps, { scenarioTrainer ps with current_epoch := 6, skip_backward := false }) := by
    show scenarioStep (scenarioAfter ps 6) 6 = _
    rw [h6, step_pre _ 6 (by norm_num) rfl rfl]
  have hA : (scenarioAfter ps 7).1.swa_epoch_start = SwaEpochStart.int 8 := by rw [h7]; rfl
  have hB : (scenarioAfter ps 7).1._max_epochs = 10 := by rw [h7]; rfl
  have hC : (scenarioAfter ps 7).1.model_contains_batch_norm = Option.some false := by
    rw [h7]; rfl
  obtain ⟨a8, b8, c8, n8, u8, w8, f8, m8⟩ := step_7_obs (scenarioAfter ps 7) hA hB hC
  obtain ⟨a9, b9, c9, n9, u9, w9, f9, m9⟩ := step_8_obs (scenarioAfter ps 8) a8 b8 c8
  obtain ⟨a10, b10, c10, n10, u10, w10, f10, m10⟩ := step_9_obs (scenarioAfter ps 9) a9 b9 c9
  have w7 := start_7_obs (scenarioAfter ps 7).1
    { (scenarioAfter ps 7).2 with current_epoch := 7 } hA hB rfl
  have v8 := start_8_obs (scenarioAfter ps 8).1
    { (scenarioAfter ps 8).2 with current_epoch := 8 } a8 b8 rfl
  have v9 := start_9_obs (scenarioAfter ps 9).1
    { (scenarioAfter ps 9).2 with current_epoch := 9 } a9 b9 rfl
  have hn7 : (scenarioAfter ps 7).1.n_averaged = 0 := by rw [h7]; rfl
  have hu7 : (scenarioAfter ps 7).1.update_calls = 0 := by rw [h7]; rfl
  have hw7 : (scenarioAfter ps 7).1.scheduler_swaps = 0 := by rw [h7]; rfl
  have hf7 : (scenarioAfter ps 7).1.transfer_calls = 0 := by rw [h7]; rfl
  have hn8 : (scenarioAfter ps 8).1.n_averaged = 1 := n8
  have hu8 : (scenarioAfter ps 8).1.update_calls = 1 := by
    show (scenarioStep (scenarioAfter ps 7) 7).1.update_calls = 1
    rw [u8, hu7]
  have hw8 : (scenarioAfter ps 8).1.scheduler_swaps = 1 := by
    show (scenarioStep (scenarioAfter ps 7) 7).1.scheduler_swaps = 1
    rw [w8, hw7]
  have hf8 : (scenarioAfter ps 8).1.transfer_calls = 0 := by
    show (scenarioStep (scenarioAfter ps 7) 7).1.transfer_calls = 0
    rw [f8, hf7]
  have hn9 : (scenarioAfter ps 9).1.n_averaged = 2 := by
    show (scenarioStep (scenarioAfter ps 8) 8).1.n_averaged = 2
    rw [n9, hn8]
  have hu9 : (scenarioAfter ps 9).1.update_calls = 2 := by
    show (scenarioStep (scenarioAfter ps 8) 8).1.update_calls = 2
    rw [u9, hu8]
  have hw9 : (scenarioAfter ps 9).1.scheduler_swaps = 1 := by
    show (scenarioStep (scenarioAfter ps 8) 8).1.scheduler_swaps = 1
    rw [w9, hw8]
  have hf9 : (scenarioAfter ps 9).1.transfer_calls = 0 := by
    show (scenarioStep (scenarioAfter ps 8) 8).1.transfer_calls = 0
    rw [f9, hf8]
  have hn10 : (scenarioAfter ps 10).1.n_averaged = 3 := by
    show (scenarioStep (scenarioAfter ps 9) 9).1.n_averaged = 3
    rw [n10, hn9]
  have hu10 : (scenarioAfter ps 10).1.update_calls = 3 := by
    show (scenarioStep (scenarioAfter ps 9) 9).1.update_calls = 3
    rw [u10, hu9]
  have hw10 : (scenarioAfter ps 10).1.scheduler_swaps = 1 := by
    show (scenarioStep (scenarioAfter ps 9) 9).1.scheduler_swaps = 1
    rw [w10, hw9]
  have hf10 : (scenarioAfter ps 10).1.transfer_calls = 1 := by
    show (scenarioStep (scenarioAfter ps 9) 9).1.transfer_calls = 1
    rw [f10, hf9]
  have hm7 : (scenarioAfter ps 7).2.max_epochs = 10 := by rw [h7]; rfl
  have hm8 : (scenarioAfter ps 8).2.max_epochs = 10 := by
    show (scenarioStep (scenarioAfter ps 7) 7).2.max_epochs = 10
    rw [m8, hm7]
  have hm9 : (scenarioAfter ps 9).2.max_epochs = 10 := by
    show (scenarioStep (scenarioAfter ps 8) 8).2.max_epochs = 10
    rw [m9, hm8]
  have hm10 : (scenarioAfter ps 10).2.max_epochs = 10 := by
    show (scenarioStep (scenarioAfter ps 9) 9).2.max_epochs = 10
    rw [m10, hm9]
  refine ⟨?_, ?_, hn7, ?_, ?_, ?_, ?_, ?_, ?_, hu10, hw7, ?_, hw10, ?_, hf10,
    by rw [h0]; rfl, by rw [h1]; rfl, by rw [h2]; rfl, by rw [h3]; rfl, by rw [h4]; rfl,
    by rw [h5]; rfl, by rw [h6]; rfl, hm7, hm8, hm9, hm10⟩
  · rw [scenarioInit_eq ps]
    norm_num [swa_start, c1Cb, SwaEpochStart.val]
  · rw [scenarioInit_eq ps]
    norm_num [swa_end, c1Cb]
  · exact w7.1
  · show (on_train_epoch_start (scenarioAfter ps 8).1
      { (scenarioAfter ps 8).2 with current_epoch := 8 }).1.n_averaged = 2
    rw [v8.1, hn8]
  · show (on_train_epoch_start (scenarioAfter ps 9).1
      { (scenarioAfter ps 9).2 with current_epoch := 9 }).1.n_averaged = 3
    rw [v9.1, hn9]
  · show (on_train_epoch_start (scenarioAfter ps 7).1
      { (scenarioAfter ps 7).2 with current_epoch := 7 }).1.update_calls = 1
    rw [w7.2.1, hu7]
  · show (on_train_epoch_start (scenarioAfter ps 8).1
      { (scenarioAfter ps 8).2 with current_epoch := 8 }).1.update_calls = 2
    rw [v8.2.1, hu8]
  · show (on_train_epoch_start (scenarioAfter ps 9).1
      { (scenarioAfter ps 9).2 with current_epoch := 9 }).1.update_calls = 3
    rw [v9.2.1, hu9]
  · show (on_train_epoch_start (scenarioAfter ps 7).1
      { (scenarioAfter ps 7).2 with current_epoch := 7 }).1.scheduler_swaps = 1
    rw [w7.2.2.1, hw7]
  · show (on_train_epoch_start (scenarioAfter ps 9).1
      { (scenarioAfter ps 9).2 with current_epoch := 9 }).1.transfer_calls = 0
    rw [v9.2.2.2, hf9]

/-- C2: the averaging function stored at configuration time is not the
one update_parameters is invoked with.  The callback below stores the
constant function 99 as its _avg_fn, yet on an in-window epoch the
averaged parameter becomes 5, the value of the class-level default
avg_fn, because source line 197 passes self.avg_fn instead of
self._avg_fn. -/
theorem C2_update_uses_default_avg_fn :
    customFnCb._avg_fn 0 10 1 = 99 ∧
    avg_fn 0 10 1 = 5 ∧
    (on_train_epoch_start customFnCb customFnTrainer).1.average_model.params = [5] ∧
    (on_train_epoch_start customFnCb customFnTrainer).1.n_averaged = 2 := by
  refine ⟨rfl, by norm_num [avg_fn], ?_, ?_⟩ <;>
    norm_num [on_train_epoch_start, epoch_start_phase1, epoch_start_phase2, epoch_start_phase3,
      customFnCb, customFnTrainer, swa_start, swa_end, SwaEpochStart.val, update_parameters,
      avg_fn, truthy]

/-- C3: with the default averaging function and counter k > 0,
update_parameters maps each parameter pair to
oldAvg + (src - oldAvg) / (k + 1); feeding any nonempty sequence of
source values at counters 0, 1, ... yields the arithmetic mean of the
sequence; and inside the averaging window the hook leaves the source
module untouched. -/
theorem C3_default_avg_mean :
    (∀ (average_params model_params : List ℚ) (k : ℕ), k ≠ 0 →
        update_parameters average_params model_params k avg_fn =
          (List.zipWith (fun a m => a + (m - a) / ((k : ℚ) + 1)) average_params model_params,
            k + 1)) ∧
    (∀ (a0 : ℚ) (xs : List ℚ), xs ≠ [] →
        (runUpdates avg_fn [a0] 0 (xs.map fun x => [x])).1 = [xs.sum / xs.length]) ∧
    (∀ (s : SWACallback) (tr : TrainerState),
        swa_start s ≤ (tr.current_epoch : ℚ) → (tr.current_epoch : ℚ) ≤ swa_end s →
        (on_train_epoch_start s tr).2.pl_module = tr.pl_module) := by
  refine ⟨?_, ?_, ?_⟩
  · intro ap mp k hk
    simp [update_parameters, avg_fn, hk]
  · intro a0 xs hxs
    rw [runUpdates_singleton_mean xs 0 a0 (by simpa using List.length_pos.mpr hxs)]
    simp
  · intro s tr h1 h2
    have hnot : ¬ swa_end s < (tr.current_epoch : ℚ) := not_lt.mpr h2
    obtain ⟨e1, m1, a1, c1, p1, me1, n1, g1, k1, d1⟩ := phase1_frame s tr
    have htr2 := phase2_tr (epoch_start_phase1 s tr).1 (epoch_start_phase1 s tr).2
    obtain ⟨e2, m2, a2⟩ := phase2_frame (epoch_start_phase1 s tr).1 (epoch_start_phase1 s tr).2
    have hcond : ¬ swa_end (epoch_start_phase2 (epoch_start_phase1 s tr).1
        (epoch_start_phase1 s tr).2).1 <
        ((epoch_start_phase2 (epoch_start_phase1 s tr).1
          (epoch_start_phase1 s tr).2).2.current_epoch : ℚ) := by
      rw [swa_end_eq _ s (by rw [m2, m1]), htr2, c1]
      exact hnot
    have hdec : on_train_epoch_start s tr =
        epoch_start_phase3
          (epoch_start_phase2 (epoch_start_phase1 s tr).1 (epoch_start_phase1 s tr).2).1
          (epoch_start_phase2 (epoch_start_phase1 s tr).1 (epoch_start_phase1 s tr).2).2 := rfl
    rw [hdec, phase3_not _ _ hcond, htr2, p1]

/-- C3 witness: the theorem applied at counter 2 with parameters 4 and
10 (mean update gives 6), at the sequence 1, 2, 3 (mean 2), and at a
concrete in-window state. -/
theorem C3_default_avg_mean_witness :
    (2 : ℕ) ≠ 0 ∧
    update_parameters [4] [10] 2 avg_fn = ([6], 3) ∧
    ([(1 : ℚ), 2, 3] ≠ []) ∧
    (runUpdates avg_fn [(5 : ℚ)] 0 ([(1 : ℚ), 2, 3].map fun x => [x])).1 = [2] ∧
    (on_train_epoch_start customFnCb customFnTrainer).2.pl_module =
      customFnTrainer.pl_module := by
  refine ⟨by norm_num, ?_, by simp, ?_, ?_⟩
  · rw [C3_default_avg_mean.1 [4] [10] 2 (by norm_num)]
    norm_num [avg_fn, List.zipWith]
  · have h := C3_default_avg_mean.2.1 5 [(1 : ℚ), 2, 3] (by simp)
    rw [h]
    norm_num
  · exact C3_default_avg_mean.2.2 customFnCb customFnTrainer
      (by norm_num [swa_start, customFnCb, customFnTrainer, SwaEpochStart.val])
      (by norm_num [swa_end, customFnCb, customFnTrainer])

/-- C4 counterexample: with swa_epoch_start = 0.0 and max_epochs = 10
the resolution succeeds and the resolved swa_start is 0, whereas the
claimed formula int(0.0 times 10) minus 1 gives -1. -/
theorem C4_counterexample :
    on_before_accelerator_backend_setup zeroStartCb (scenarioTrainer []) =
      .ok ({ zeroStartCb with
              average_model := ⟨[], []⟩
              swa_epoch_start := SwaEpochStart.int 0
              model_contains_batch_norm := Option.some false
              _max_epochs := 10 }, scenarioTrainer []) ∧
    swa_start { zeroStartCb with
        average_model := ⟨[], []⟩
        swa_epoch_start := SwaEpochStart.int 0
        model_contains_batch_norm := Option.some false
        _max_epochs := 10 } = 0 ∧
    pyIntTrunc ((10 : ℚ) * 0) - 1 = -1 ∧
    ((0 : ℚ) ≠ ((-1 : ℤ) : ℚ)) := by
  refine ⟨?_, ?_, by norm_num [pyIntTrunc], by norm_num⟩
  · norm_num [on_before_accelerator_backend_setup, zeroStartCb, scenarioTrainer,
      pl_module_contains_batch_norm, pyIntTrunc]
  · norm_num [swa_start, SwaEpochStart.val, zeroStartCb]

/-- C4 amended: for a float swa_epoch_start q in the closed unit
interval, on_before_accelerator_backend_setup resolves it once to
int(max_epochs times q), after which swa_start equals the clamp
max(int(max_epochs times q) - 1, 0); neither epoch hook ever changes
the resolved value. -/
theorem C4_resolution_amended :
    (∀ (q : ℚ) (s : SWACallback) (tr : TrainerState), 0 ≤ q → q ≤ 1 →
        s.swa_epoch_start = SwaEpochStart.float q →
        tr.optimizers.length ≤ 1 → tr.lr_schedulers.length ≤ 1 →
        ∃ s2 tr2, on_before_accelerator_backend_setup s tr = .ok (s2, tr2) ∧
          s2.swa_epoch_start = SwaEpochStart.int (pyIntTrunc ((tr.max_epochs : ℚ) * q)) ∧
          swa_start s2 = max ((pyIntTrunc ((tr.max_epochs : ℚ) * q) : ℚ) - 1) 0) ∧
    (∀ (s : SWACallback) (tr : TrainerState),
        (on_train_epoch_start s tr).1.swa_epoch_start = s.swa_epoch_start ∧
        (on_train_epoch_end s tr).1.swa_epoch_start = s.swa_epoch_start) := by
  constructor
  · intro q s tr h0 h1 hse ho hs
    have hres : on_before_accelerator_backend_setup s tr = .ok
        ({ s with
            average_model := tr.pl_module
            swa_epoch_start := SwaEpochStart.int (pyIntTrunc ((tr.max_epochs : ℚ) * q))
            model_contains_batch_norm :=
              Option.some (pl_module_contains_batch_norm tr.pl_module)
            _max_epochs := tr.max_epochs },
          if pl_module_contains_batch_norm tr.pl_module
          then { tr with max_epochs := tr.max_epochs + 1 } else tr) := by
      unfold on_before_accelerator_backend_setup
      rw [if_neg (by omega), if_neg (by omega), hse]
    exact ⟨_, _, hres, rfl, by simp [swa_start, SwaEpochStart.val]⟩
  · intro s tr
    exact ⟨start_swa_epoch_start s tr, end_swa_epoch_start s tr⟩

/-- C4 witness: the amended resolution applied at q = 0.8 with
max_epochs = 10. -/
theorem C4_resolution_amended_witness :
    (0 : ℚ) ≤ 4/5 ∧ (4/5 : ℚ) ≤ 1 ∧
    scenarioCb.swa_epoch_start = SwaEpochStart.float (4/5) ∧
    (scenarioTrainer []).optimizers.length ≤ 1 ∧
    (scenarioTrainer []).lr_schedulers.length ≤ 1 ∧
    (∃ s2 tr2,
      on_before_accelerator_backend_setup scenarioCb (scenarioTrainer []) = .ok (s2, tr2) ∧
      s2.swa_epoch_start =
        SwaEpochStart.int (pyIntTrunc ((((scenarioTrainer []).max_epochs : ℕ) : ℚ) * (4/5))) ∧
      swa_start s2 =
        max ((pyIntTrunc ((((scenarioTrainer []).max_epochs : ℕ) : ℚ) * (4/5)) : ℚ) - 1) 0) := by
  refine ⟨by norm_num, by norm_num, rfl, by norm_num [scenarioTrainer],
    by norm_num [scenarioTrainer], ?_⟩
  exact C4_resolution_amended.1 (4/5) scenarioCb (scenarioTrainer []) (by norm_num)
    (by norm_num) rfl (by norm_num [scenarioTrainer]) (by norm_num [scenarioTrainer])

/-- C5 amended: the swa_lrs validation raises exactly when swa_lrs is
neither a positive float nor a list all of whose elements are positive
floats; the empty list passes the all(...) check vacuously and is
accepted, contrary to the spec requirement that the list be nonempty.
The init equivalence ties the predicate to the raise site. -/
theorem C5_swa_lrs_amended :
    (∀ a : SwaLRsArg, swa_lrs_raises a = (!(isPositiveFloatLR a || isPositiveFloatListLR a))) ∧
    (∀ (a : SwaLRsArg) (k : ℕ) (st : String) (f : Option AvgFn),
      (init (.int 5) a k st f = .error .badSwaLRs) ↔ swa_lrs_raises a = true) := by
  constructor
  · intro a
    cases a with
    | none => rfl
    | int n => rfl
    | float q =>
        simp [swa_lrs_raises, isPositiveFloatLR, isPositiveFloatListLR, ← decide_not, not_lt]
    | list xs =>
        simp only [swa_lrs_raises, isPositiveFloatLR, isPositiveFloatListLR, Bool.false_or]
        have hp : (fun lr : PyNum =>
            decide (0 < lr.val) && (match lr with | .pfloat _ => true | .pint _ => false)) =
            (fun lr : PyNum => match lr with | .pfloat q => decide (0 < q) | .pint _ => false) := by
          funext lr
          cases lr <;> simp [PyNum.val]
        rw [hp]
  · intro a k st f
    simp only [init, swa_epoch_start_raises]
    norm_num
    by_cases hr : swa_lrs_raises a <;> simp [hr]

/-- C5 counterexample: the empty list does not raise; init accepts it
and stores it, refuting the claim that the empty list is rejected. -/
theorem C5_empty_list_accepted :
    swa_lrs_raises (SwaLRsArg.list []) = false ∧
    init (SwaEpochStart.int 5) (SwaLRsArg.list []) 10 "cos" Option.none =
      .ok { swa_epoch_start := .int 5, swa_lrs := .list [], annealing_epochs := 10,
            annealing_strategy := "cos", _avg_fn := avg_fn } :=
  ⟨rfl, rfl⟩

/-- C6: on any epoch past swa_end, running on_train_epoch_start and
then on_train_epoch_end leaves num_training_batches and
accumulate_grad_batches at their prior values and the skip-backward
flag false. -/
theorem C6_recalibration_frame (s : SWACallback) (tr : TrainerState)
    (h : swa_end s < (tr.current_epoch : ℚ)) :
    (on_train_epoch_end (on_train_epoch_start s tr).1
        (on_train_epoch_start s tr).2).2.num_training_batches = tr.num_training_batches ∧
    (on_train_epoch_end (on_train_epoch_start s tr).1
        (on_train_epoch_start s tr).2).2.accumulate_grad_batches = tr.accumulate_grad_batches ∧
    (on_train_epoch_end (on_train_epoch_start s tr).1
        (on_train_epoch_start s tr).2).2.skip_backward = false := by
  obtain ⟨e1, m1, a1, c1, p1, me1, n1, g1, k1, d1⟩ := phase1_frame s tr
  obtain ⟨e2, m2, a2⟩ := phase2_frame (epoch_start_phase1 s tr).1 (epoch_start_phase1 s tr).2
  have htr2 := phase2_tr (epoch_start_phase1 s tr).1 (epoch_start_phase1 s tr).2
  have hme : (epoch_start_phase2 (epoch_start_phase1 s tr).1
      (epoch_start_phase1 s tr).2).1._max_epochs = s._max_epochs := by rw [m2, m1]
  have hcur : (epoch_start_phase2 (epoch_start_phase1 s tr).1
      (epoch_start_phase1 s tr).2).2.current_epoch = tr.current_epoch := by rw [htr2, c1]
  have hcond : swa_end (epoch_start_phase2 (epoch_start_phase1 s tr).1
      (epoch_start_phase1 s tr).2).1 <
      ((epoch_start_phase2 (epoch_start_phase1 s tr).1
        (epoch_start_phase1 s tr).2).2.current_epoch : ℚ) := by
    rw [swa_end_eq _ s hme, hcur]
    exact h
  have hstart : on_train_epoch_start s tr =
      epoch_start_phase3 (epoch_start_phase2 (epoch_start_phase1 s tr).1
        (epoch_start_phase1 s tr).2).1
        (epoch_start_phase2 (epoch_start_phase1 s tr).1 (epoch_start_phase1 s tr).2).2 := rfl
  rw [hstart, phase3_past _ _ hcond]
  rw [epoch_end_past _ _ (by simpa using hcond)]
  refine ⟨?_, ?_, rfl⟩
  · simp [htr2, n1]
  · simp [htr2, g1]

/-- C6 witness: the frame property at the concrete synthetic epoch 10
of a run whose window ended at epoch 9. -/
theorem C6_recalibration_frame_witness :
    swa_end pastCb < ((pastTrainer.current_epoch : ℕ) : ℚ) ∧
    (on_train_epoch_end (on_train_epoch_start pastCb pastTrainer).1
        (on_train_epoch_start pastCb pastTrainer).2).2.num_training_batches = 5 ∧
    (on_train_epoch_end (on_train_epoch_start pastCb pastTrainer).1
        (on_train_epoch_start pastCb pastTrainer).2).2.accumulate_grad_batches = 2 ∧
    (on_train_epoch_end (on_train_epoch_start pastCb pastTrainer).1
        (on_train_epoch_start pastCb pastTrainer).2).2.skip_backward = false := by
  have h : swa_end pastCb < ((pastTrainer.current_epoch : ℕ) : ℚ) := by
    norm_num [swa_end, pastCb, pastTrainer]
  obtain ⟨h1, h2, h3⟩ := C6_recalibration_frame pastCb pastTrainer h
  exact ⟨h, by rw [h1]; rfl, by rw [h2]; rfl, h3⟩

/-- C7: reset_batch_norm_and_save_state followed by reset_momenta
restores every batch-norm momentum to its pre-reset value, for any
number of batch-norm modules. -/
theorem C7_reset_restore_momentum (m : PLModule) :
    (reset_momenta (reset_batch_norm_and_save_state m).1
        (reset_batch_norm_and_save_state m).2).bns.map (fun b => b.momentum) =
      m.bns.map (fun b => b.momentum) := by
  cases m with
  | mk params bns =>
      simp only [reset_batch_norm_and_save_state, reset_momenta]
      exact zipWith_momentum _ _ (by simp)

/-- C10: a second reset_batch_norm_and_save_state without an
intervening reset_momenta snapshots the sentinel None written by the
first call, so the eventual restore sets every momentum to None and the
original momenta are lost. -/
theorem C10_double_reset_loses_momenta (m : PLModule) :
    (reset_batch_norm_and_save_state (reset_batch_norm_and_save_state m).1).2 =
      m.bns.map (fun _b => (Option.none : Option ℚ)) ∧
    (reset_momenta (reset_batch_norm_and_save_state (reset_batch_norm_and_save_state m).1).1
        (reset_batch_norm_and_save_state (reset_batch_norm_and_save_state m).1).2).bns.map
        (fun b => b.momentum) = m.bns.map (fun _b => (Option.none : Option ℚ)) := by
  cases m with
  | mk params bns =>
      constructor
      · simp [reset_batch_norm_and_save_state]
      · simp only [reset_batch_norm_and_save_state, reset_momenta]
        rw [zipWith_momentum _ _ (by simp)]
        simp

end SWA

namespace DeepSpeed

/-- C8: when the config has no optimizer entry and configure_optimizers
returns exactly one optimizer dict and exactly one scheduler dict,
_format_optimizer_config raises MisconfigurationException instead of
succeeding, because the guard on source line 201 parses as
(len(optimizer) != 1) or (len(scheduler) == 1). -/
theorem C8_single_optimizer_scheduler_raises (cfg : DSConfig)
    (opt sched : List (String × String))
    (h : cfg.has_optimizer = false) (_ho : opt.length = 1) (hs : sched.length = 1) :
    format_optimizer_config cfg opt sched = .error .misconfigSingleOptimizerScheduler := by
  unfold format_optimizer_config
  rw [if_neg (by simp [h]), if_pos (Or.inr hs)]

/-- C8 witness: a config without an optimizer key together with one
Adam optimizer dict and one WarmupLR scheduler dict. -/
theorem C8_single_optimizer_scheduler_raises_witness :
    (⟨false, Option.none, Option.none, false⟩ : DSConfig).has_optimizer = false ∧
    [("Adam", "lr=0.01")].length = 1 ∧
    [("WarmupLR", "warmup")].length = 1 ∧
    format_optimizer_config ⟨false, Option.none, Option.none, false⟩
      [("Adam", "lr=0.01")] [("WarmupLR", "warmup")] =
        .error .misconfigSingleOptimizerScheduler := by
  refine ⟨rfl, rfl, rfl, ?_⟩
  exact C8_single_optimizer_scheduler_raises _ _ _ rfl rfl rfl

/-- C9 counterexample: with RANK and WORLD_SIZE set and LOCAL_RANK
absent, set_world_ranks fails with KeyError, which is not a
MisconfigurationException, refuting the claim that it raises
ConfigurationError. -/
theorem C9_counterexample :
    set_world_ranks envMissingLocalRank = .error DSErr.keyError ∧
    DSErr.keyError.isMisconfiguration = false := by
  constructor
  · simp [set_world_ranks, envInt, envMissingLocalRank]
  · rfl

/-- C9 amended: whenever any of RANK, WORLD_SIZE or LOCAL_RANK is
absent or non-integer, set_world_ranks fails, but with a built-in
KeyError or ValueError, never with a MisconfigurationException. -/
theorem C9_missing_env_not_misconfiguration (env : String → Option EnvVal)
    (h : (envBad env "RANK" || envBad env "WORLD_SIZE" || envBad env "LOCAL_RANK") = true) :
    ∃ e, set_world_ranks env = .error e ∧ e.isMisconfiguration = false := by
  rcases hR : env "RANK" with _ | vR
  · exact ⟨.keyError, by simp [set_world_ranks, envInt, hR], rfl⟩
  · cases vR with
    | nonIntStr => exact ⟨.valueError, by simp [set_world_ranks, envInt, hR], rfl⟩
    | intStr nR =>
        rcases hW : env "WORLD_SIZE" with _ | vW
        · exact ⟨.keyError, by simp [set_world_ranks, envInt, hR, hW], rfl⟩
        · cases vW with
          | nonIntStr => exact ⟨.valueError, by simp [set_world_ranks, envInt, hR, hW], rfl⟩
          | intStr nW =>
              rcases hL : env "LOCAL_RANK" with _ | vL
              · exact ⟨.keyError, by simp [set_world_ranks, envInt, hR, hW, hL], rfl⟩
              · cases vL with
                | nonIntStr =>
                    exact ⟨.valueError, by simp [set_world_ranks, envInt, hR, hW, hL], rfl⟩
                | intStr nL =>
                    exfalso
                    simp [envBad, hR, hW, hL] at h

/-- C9 witness: the amended statement applied to the environment with
LOCAL_RANK missing. -/
theorem C9_missing_env_not_misconfiguration_witness :
    (envBad envMissingLocalRank "RANK" || envBad envMissingLocalRank "WORLD_SIZE" ||
      envBad envMissingLocalRank "LOCAL_RANK") = true ∧
    (∃ e, set_world_ranks envMissingLocalRank = .error e ∧ e.isMisconfiguration = false) := by
  have h : (envBad envMissingLocalRank "RANK" || envBad envMissingLocalRank "WORLD_SIZE" ||
      envBad envMissingLocalRank "LOCAL_RANK") = true := by
    simp [envBad, envMissingLocalRank]
  exact ⟨h, C9_missing_env_not_misconfiguration envMissingLocalRank h⟩

end DeepSpeed
